import Mathlib

/-!
Verification of the literal-sql query builder (`src/mod.ts`).

The development shallowly embeds the `SQLQuery` class: its query-part
buckets, the interpolator that turns template values into numbered
parameters, the fragment classifier (`parseQuery`), the line-based
initial-query parser (`parseInitialQuery`), the renderer (`toString`),
the parameter-array export (`parameters`), and the copy-based extension
method (`sql`).

String primitives are re-implemented over `String.data` with structural
recursion so that every definition evaluates inside the kernel; they
mirror the JavaScript string operations used by the source on the ASCII
inputs the library manipulates.
-/

/-- Whitespace test used for the `trim` / `\s` operations of the source. -/
def isWsC (c : Char) : Bool := c.isWhitespace

/-- JavaScript `String.prototype.trim`. -/
def jsTrim (s : String) : String :=
  ⟨((s.data.dropWhile isWsC).reverse.dropWhile isWsC).reverse⟩

/-- JavaScript `String.prototype.toLowerCase` (ASCII). -/
def jsToLower (s : String) : String := ⟨s.data.map Char.toLower⟩

/-- JavaScript `String.prototype.startsWith`. -/
def jsStartsWith (s pre : String) : Bool := pre.data.isPrefixOf s.data

/-- JavaScript `String.prototype.substring(n)`: drop the first `n` characters. -/
def jsDrop (s : String) (n : Nat) : String := ⟨s.data.drop n⟩

/-- Split a character list at every occurrence of the character `c`. -/
def splitOnCharAux (c : Char) : List Char → List (List Char)
  | [] => [[]]
  | x :: xs =>
      let r := splitOnCharAux c xs
      if x = c then [] :: r
      else
        match r with
        | h :: t => (x :: h) :: t
        | [] => [[x]]

/-- JavaScript `query.split("\n")`. -/
def jsSplitLines (s : String) : List String :=
  (splitOnCharAux '\n' s.data).map (fun l => ⟨l⟩)

/-- JavaScript `Array.prototype.join(sep)`. -/
def jsIntercalate (sep : String) (l : List String) : String :=
  ⟨List.intercalate sep.data (l.map String.data)⟩

/-- Decimal rendering of a natural number (fuel-based so it computes). -/
def natToStrAux : Nat → Nat → List Char
  | 0, _ => []
  | fuel + 1, n =>
      if n < 10 then [Nat.digitChar n]
      else natToStrAux fuel (n / 10) ++ [Nat.digitChar (n % 10)]

/-- Decimal rendering of a natural number, as spliced by `$${this.paramCounter}`. -/
def natToStr (n : Nat) : String := ⟨natToStrAux (n + 1) n⟩

/-- JavaScript `String.prototype.includes` on character lists. -/
def containsListAux (pat : List Char) : List Char → Bool
  | [] => pat.isEmpty
  | c :: rest => pat.isPrefixOf (c :: rest) || containsListAux pat rest

/-- JavaScript `String.prototype.includes`. -/
def containsStr (s pat : String) : Bool := containsListAux pat.data s.data

/-- The regex test `line.match(/^\s*,\s*$/)`: whitespace, one comma, whitespace. -/
def matchesCommaOnly (s : String) : Bool := jsTrim s == ","

/-- The regex replacement `line.replace(/^,\s*/, "")`: strip one leading comma
and the whitespace after it. -/
def stripLeadingComma (s : String) : String :=
  match s.data with
  | ',' :: rest => ⟨rest.dropWhile isWsC⟩
  | _ => s

/-- The regex replacement `line.replace(/,\s*$/, "")`: strip one trailing comma
together with the whitespace following it. -/
def stripTrailingComma (s : String) : String :=
  match s.data.reverse.dropWhile isWsC with
  | ',' :: rest => ⟨rest.reverse⟩
  | _ => s

/-- A JavaScript value embedded into a template literal.  An embedded
`SQLQuery` is represented by the text its `toString` produces, which is
exactly what the interpolator splices for it. -/
inductive Value where
  | undef : Value
  | vnull : Value
  | bool : Bool → Value
  | num : Int → Value
  | str : String → Value
  | obj : List (String × Value) → Value
  | subq : String → Value

/-- `typeof v !== "object"` (and not `undefined`): the primitives. -/
def Value.isPrimitive : Value → Bool
  | .bool _ => true
  | .num _ => true
  | .str _ => true
  | _ => false

/-- The `QueryParts` interface of `src/mod.ts`. -/
structure QueryParts where
  select : List String
  from_ : Option String
  joins : List String
  where_ : List String
  groupBy : List String
  orderBy : List String
  limit : Option String
  offset : Option String

/-- The `SQLQuery` class state: parts, the numbered parameter store, and
the parameter counter. -/
structure SQLQuery where
  parts : QueryParts
  params : List (Nat × Value)
  paramCounter : Nat

/-- Assignment `params[k] = v` on a JavaScript object with numeric keys:
replace the value at an existing key, otherwise append the new key. -/
def setParam : List (Nat × Value) → Nat → Value → List (Nat × Value)
  | [], k, v => [(k, v)]
  | (k', v') :: rest, k, v =>
      if k' = k then (k, v) :: rest else (k', v') :: setParam rest k v

/-- `Object.values(value)[0]`: the value of the first declared key, or
`undefined` when the object is empty. -/
def firstDeclaredValue : List (String × Value) → Value
  | [] => Value.undef
  | (_, v) :: _ => v

/-- Store one parameter value: increment the counter, record the value
under the new key, and emit the `$<n>` placeholder. -/
def storeParam (q : SQLQuery) (v : Value) : String × SQLQuery :=
  let c := q.paramCounter + 1
  ("$" ++ natToStr c,
   { q with paramCounter := c, params := setParam q.params c v })

/-- One interpolation gap of `_interpolate`: `undefined` becomes the text
`NULL`; a primitive becomes a numbered parameter; a plain object (not
`null`, not an `SQLQuery`) contributes its first declared value as a
numbered parameter; `null` and embedded `SQLQuery` values are spliced as
text. -/
def interpGap (q : SQLQuery) (v : Value) : String × SQLQuery :=
  match v with
  | Value.undef => ("NULL", q)
  | Value.bool b => storeParam q (Value.bool b)
  | Value.num n => storeParam q (Value.num n)
  | Value.str s => storeParam q (Value.str s)
  | Value.obj kvs => storeParam q (firstDeclaredValue kvs)
  | Value.vnull => ("null", q)
  | Value.subq t => (t, q)

/-- `_interpolate(strings, values)`: concatenate the template segments with
the per-gap outputs, threading the parameter state left to right.  A gap
is processed only while template values remain (`i < values.length`). -/
def SQLQuery.interpolate : SQLQuery → List String → List Value → String × SQLQuery
  | q, [], _ => ("", q)
  | q, s :: strs, [] =>
      let (rest, q1) := SQLQuery.interpolate q strs []
      (s ++ rest, q1)
  | q, s :: strs, v :: vs =>
      let (gap, q1) := interpGap q v
      let (rest, q2) := SQLQuery.interpolate q1 strs vs
      (s ++ gap ++ rest, q2)

/-- The `currentSection` tag of `parseInitialQuery`. -/
inductive ClauseSection where
  | select : ClauseSection
  | from_ : ClauseSection
  | joins : ClauseSection
  | where_ : ClauseSection
  | groupBy : ClauseSection
  | orderBy : ClauseSection
deriving DecidableEq

/-- One iteration of the line loop of `parseInitialQuery`: keyword lines
seed their bucket and (except for `limit`/`offset`) retag the current
section; other lines continue the current section, with comma
normalization for multi-line SELECT field lists. -/
def initLineStep (acc : SQLQuery × Option ClauseSection) (line : String) :
    SQLQuery × Option ClauseSection :=
  let q := acc.1
  let currentSection := acc.2
  let lowerLine := jsToLower line
  if jsStartsWith lowerLine "select" then
    let fieldsText := jsTrim (jsDrop line 6)
    ({ q with parts := { q.parts with
        select := if fieldsText.data.isEmpty then [] else [fieldsText] } },
     some ClauseSection.select)
  else if jsStartsWith lowerLine "from" then
    ({ q with parts := { q.parts with from_ := some (jsTrim (jsDrop line 4)) } },
     some ClauseSection.from_)
  else if jsStartsWith lowerLine "join" || jsStartsWith lowerLine "left join"
      || jsStartsWith lowerLine "right join" || jsStartsWith lowerLine "inner join" then
    ({ q with parts := { q.parts with joins := q.parts.joins ++ [line] } },
     some ClauseSection.joins)
  else if jsStartsWith lowerLine "where" then
    ({ q with parts := { q.parts with where_ := q.parts.where_ ++ [jsTrim (jsDrop line 5)] } },
     some ClauseSection.where_)
  else if jsStartsWith lowerLine "group by" then
    ({ q with parts := { q.parts with groupBy := q.parts.groupBy ++ [jsTrim (jsDrop line 8)] } },
     some ClauseSection.groupBy)
  else if jsStartsWith lowerLine "order by" then
    ({ q with parts := { q.parts with orderBy := q.parts.orderBy ++ [jsTrim (jsDrop line 8)] } },
     some ClauseSection.orderBy)
  else if jsStartsWith lowerLine "limit" then
    ({ q with parts := { q.parts with limit := some (jsTrim (jsDrop line 5)) } },
     currentSection)
  else if jsStartsWith lowerLine "offset" then
    ({ q with parts := { q.parts with offset := some (jsTrim (jsDrop line 6)) } },
     currentSection)
  else
    match currentSection with
    | some ClauseSection.select =>
        if line != "," && !matchesCommaOnly line then
          let cleanedLine := stripLeadingComma line
          let finalLine := stripTrailingComma cleanedLine
          if finalLine.data.isEmpty then (q, currentSection)
          else ({ q with parts := { q.parts with select := q.parts.select ++ [finalLine] } },
                currentSection)
        else (q, currentSection)
    | some ClauseSection.where_ =>
        ({ q with parts := { q.parts with where_ := q.parts.where_ ++ [line] } },
         currentSection)
    | some ClauseSection.groupBy =>
        ({ q with parts := { q.parts with groupBy := q.parts.groupBy ++ [line] } },
         currentSection)
    | some ClauseSection.orderBy =>
        ({ q with parts := { q.parts with orderBy := q.parts.orderBy ++ [line] } },
         currentSection)
    | _ => (q, currentSection)

/-- `parseInitialQuery(query)`: split into trimmed, non-empty lines and
fold the line loop starting with no current section. -/
def SQLQuery.parseInitialQuery (q : SQLQuery) (query : String) : SQLQuery :=
  let lines := ((jsSplitLines query).map jsTrim).filter (fun l => !l.data.isEmpty)
  (lines.foldl initLineStep (q, none)).1

/-- `parseQuery(query)`: classify one fragment by case-insensitive prefix
and splice it into the matching bucket; anything unrecognized is treated
as a WHERE condition, with an `AND ` prefix when conditions exist. -/
def SQLQuery.parseQuery (q : SQLQuery) (query : String) : SQLQuery :=
  let trimmedQuery := jsTrim query
  let lowerQuery := jsToLower trimmedQuery
  if jsStartsWith lowerQuery "select" then
    q.parseInitialQuery trimmedQuery
  else if jsStartsWith lowerQuery "from" then
    { q with parts := { q.parts with from_ := some (jsTrim (jsDrop trimmedQuery 4)) } }
  else if jsStartsWith lowerQuery "join" || jsStartsWith lowerQuery "left join"
      || jsStartsWith lowerQuery "right join" || jsStartsWith lowerQuery "inner join" then
    { q with parts := { q.parts with joins := q.parts.joins ++ [trimmedQuery] } }
  else if jsStartsWith lowerQuery "where" then
    { q with parts := { q.parts with where_ := q.parts.where_ ++ [jsTrim (jsDrop trimmedQuery 5)] } }
  else if jsStartsWith lowerQuery "and " then
    if q.parts.where_.length > 0 then
      { q with parts := { q.parts with
          where_ := q.parts.where_ ++ ["AND " ++ jsTrim (jsDrop trimmedQuery 3)] } }
    else
      { q with parts := { q.parts with where_ := q.parts.where_ ++ [jsTrim (jsDrop trimmedQuery 3)] } }
  else if jsStartsWith lowerQuery "or " then
    if q.parts.where_.length > 0 then
      { q with parts := { q.parts with
          where_ := q.parts.where_ ++ ["OR " ++ jsTrim (jsDrop trimmedQuery 2)] } }
    else
      { q with parts := { q.parts with where_ := q.parts.where_ ++ [jsTrim (jsDrop trimmedQuery 2)] } }
  else if jsStartsWith lowerQuery "group by" then
    { q with parts := { q.parts with groupBy := q.parts.groupBy ++ [jsTrim (jsDrop trimmedQuery 8)] } }
  else if jsStartsWith lowerQuery "order by" then
    { q with parts := { q.parts with orderBy := q.parts.orderBy ++ [jsTrim (jsDrop trimmedQuery 8)] } }
  else if jsStartsWith lowerQuery "limit" then
    { q with parts := { q.parts with limit := some (jsTrim (jsDrop trimmedQuery 5)) } }
  else if jsStartsWith lowerQuery "offset" then
    { q with parts := { q.parts with offset := some (jsTrim (jsDrop trimmedQuery 6)) } }
  else if q.parts.where_.length > 0 then
    { q with parts := { q.parts with where_ := q.parts.where_ ++ ["AND " ++ trimmedQuery] } }
  else
    { q with parts := { q.parts with where_ := q.parts.where_ ++ [trimmedQuery] } }

/-- The filter applied by `toString` to GROUP BY and ORDER BY entries:
drop empties, bare commas, and unresolved-placeholder markers. -/
def validRenderEntry (part : String) : Bool :=
  !part.data.isEmpty && !containsStr part ":undefined" && part != ","

/-- The GROUP BY / ORDER BY render blocks of `toString`. -/
def renderFiltered (keyword : String) (entries : List String) : List String :=
  if entries.length > 0 then
    let valid := entries.filter validRenderEntry
    if valid.length > 0 then [keyword ++ jsIntercalate ", " valid] else []
  else []

/-- `toString()`: serialize the buckets in the fixed clause order, joined
with newlines. -/
def SQLQuery.toString (q : SQLQuery) : String :=
  let selectParts : List String :=
    if q.parts.select.length > 0 then
      ["SELECT\n  " ++ jsIntercalate ",\n  " q.parts.select]
    else ["SELECT *"]
  let fromParts : List String :=
    match q.parts.from_ with
    | some f => if f.data.isEmpty then [] else ["FROM " ++ f]
    | none => []
  let joinParts : List String :=
    if q.parts.joins.length > 0 then [jsIntercalate "\n" q.parts.joins] else []
  let whereParts : List String :=
    if q.parts.where_.length > 0 then
      ["WHERE " ++ jsIntercalate "\n  " q.parts.where_]
    else []
  let groupByParts : List String := renderFiltered "GROUP BY " q.parts.groupBy
  let orderByParts : List String := renderFiltered "ORDER BY " q.parts.orderBy
  let limitParts : List String :=
    match q.parts.limit with
    | some l => if containsStr l ":undefined" then [] else ["LIMIT " ++ l]
    | none => []
  let offsetParts : List String :=
    match q.parts.offset with
    | some o => if containsStr o ":undefined" then [] else ["OFFSET " ++ o]
    | none => []
  jsIntercalate "\n"
    (selectParts ++ fromParts ++ joinParts ++ whereParts ++ groupByParts
      ++ orderByParts ++ limitParts ++ offsetParts)

/-- The `parameters` getter: convert the numbered parameter object into a
dense array of length `max key`, filling slot `i` with `params[i+1]`. -/
def SQLQuery.parameters (q : SQLQuery) : List Value :=
  if q.params.isEmpty then []
  else
    let maxParam := (q.params.map Prod.fst).foldl max 0
    (List.range maxParam).map (fun i => (List.lookup (i + 1) q.params).getD Value.undef)

/-- `new SQLQuery()`: the empty query state. -/
def SQLQuery.empty : SQLQuery :=
  { parts :=
      { select := [], from_ := none, joins := [], where_ := [], groupBy := [],
        orderBy := [], limit := none, offset := none },
    params := [], paramCounter := 0 }

/-- `new SQLQuery(strings, ...values)` and the exported `sql` tag:
interpolate the template, then parse the result as an initial query. -/
def SQLQuery.make (strings : List String) (values : List Value) : SQLQuery :=
  if strings.length > 0 then
    let (fullQuery, q) := SQLQuery.empty.interpolate strings values
    q.parseInitialQuery fullQuery
  else SQLQuery.empty

/-- The `sql` method: copy the parts, parameters and counter into a fresh
query, interpolate the fragment against the copy, classify it, and return
the copy. -/
def SQLQuery.sql (self : SQLQuery) (strings : List String) (values : List Value) : SQLQuery :=
  let newQuery :=
    { SQLQuery.empty with
        parts := self.parts, params := self.params, paramCounter := self.paramCounter }
  let (fragment, newQuery1) := newQuery.interpolate strings values
  newQuery1.parseQuery fragment

/-- The `sql` method with both objects tracked explicitly: the receiver
(`this`) and the freshly constructed query are threaded through every
statement of the method body, and each write targets the fresh query, so
the pair returned is (receiver after the call, result).  This makes the
method's frame condition statable. -/
def SQLQuery.sqlTracked (self : SQLQuery) (strings : List String) (values : List Value) :
    SQLQuery × SQLQuery :=
  let newQuery := SQLQuery.empty
  let newQuery1 := { newQuery with parts := self.parts }
  let newQuery2 := { newQuery1 with params := self.params }
  let newQuery3 := { newQuery2 with paramCounter := self.paramCounter }
  let (fragment, newQuery4) := newQuery3.interpolate strings values
  let newQuery5 := newQuery4.parseQuery fragment
  (self, newQuery5)

/-- True when the trimmed, lowercased fragment matches one of the clause
keyword prefixes tested by `parseQuery`; false exactly when the final
implicit-WHERE branch runs. -/
def fragmentKeywordMatch (frag : String) : Bool :=
  let l := jsToLower (jsTrim frag)
  jsStartsWith l "select" || jsStartsWith l "from" || jsStartsWith l "join"
    || jsStartsWith l "left join" || jsStartsWith l "right join"
    || jsStartsWith l "inner join" || jsStartsWith l "where"
    || jsStartsWith l "and " || jsStartsWith l "or "
    || jsStartsWith l "group by" || jsStartsWith l "order by"
    || jsStartsWith l "limit" || jsStartsWith l "offset"

/-- True when a (trimmed) line matches one of the keyword prefixes tested
by the `parseInitialQuery` line loop; false exactly when the
continuation branch runs. -/
def initKeywordMatch (line : String) : Bool :=
  let l := jsToLower line
  jsStartsWith l "select" || jsStartsWith l "from" || jsStartsWith l "join"
    || jsStartsWith l "left join" || jsStartsWith l "right join"
    || jsStartsWith l "inner join" || jsStartsWith l "where"
    || jsStartsWith l "group by" || jsStartsWith l "order by"
    || jsStartsWith l "limit" || jsStartsWith l "offset"

/-- True when the `parseInitialQuery` line loop takes the `limit` or
`offset` branch for this line: no earlier keyword matches and the line
starts with `limit` or `offset`. -/
def limitOffsetLine (line : String) : Bool :=
  let l := jsToLower line
  !jsStartsWith l "select" && !jsStartsWith l "from" && !jsStartsWith l "join"
    && !jsStartsWith l "left join" && !jsStartsWith l "right join"
    && !jsStartsWith l "inner join" && !jsStartsWith l "where"
    && !jsStartsWith l "group by" && !jsStartsWith l "order by"
    && (jsStartsWith l "limit" || jsStartsWith l "offset")

/-! ### Helper lemmas -/

theorem setParam_isEmpty_false (ps : List (Nat × Value)) (k : Nat) (v : Value) :
    (setParam ps k v).isEmpty = false := by
  cases ps with
  | nil => rfl
  | cons h t =>
      obtain ⟨k', v'⟩ := h
      by_cases hk : k' = k <;> simp [setParam, hk]

theorem lookup_setParam_self (ps : List (Nat × Value)) (k : Nat) (v : Value) :
    List.lookup k (setParam ps k v) = some v := by
  induction ps with
  | nil => simp [setParam, List.lookup]
  | cons h t ih =>
      obtain ⟨k', v'⟩ := h
      by_cases hk : k' = k
      · simp [setParam, hk, List.lookup]
      · have : (k == k') = false := by simp [Ne.symm hk]
        simp [setParam, hk, List.lookup, this, ih]

theorem mem_map_fst_setParam (ps : List (Nat × Value)) (k : Nat) (v : Value) :
    k ∈ (setParam ps k v).map Prod.fst := by
  induction ps with
  | nil => simp [setParam]
  | cons h t ih =>
      obtain ⟨k', v'⟩ := h
      by_cases hk : k' = k
      · simp [setParam, hk]
      · simp only [setParam, if_neg hk, List.map_cons, List.mem_cons]
        exact Or.inr ih

theorem le_foldl_max_init (l : List Nat) : ∀ init : Nat, init ≤ l.foldl max init := by
  induction l with
  | nil => intro init; simp
  | cons a t ih =>
      intro init
      simp only [List.foldl_cons]
      exact le_trans (le_max_left init a) (ih (max init a))

theorem le_foldl_max_of_mem {a : Nat} {l : List Nat} (h : a ∈ l) :
    ∀ init : Nat, a ≤ l.foldl max init := by
  induction l with
  | nil => cases h
  | cons b t ih =>
      intro init
      simp only [List.foldl_cons]
      rcases List.mem_cons.mp h with rfl | hmem
      · exact le_trans (le_max_right init a) (le_foldl_max_init t (max init a))
      · exact ih hmem (max init b)

theorem filter_validRenderEntry_idem (l : List String) :
    (l.filter validRenderEntry).filter validRenderEntry = l.filter validRenderEntry := by
  induction l with
  | nil => rfl
  | cons a t ih =>
      cases hv : validRenderEntry a <;> simp [List.filter_cons, hv, ih]

theorem renderFiltered_filter (kw : String) (l : List String) :
    renderFiltered kw (l.filter validRenderEntry) = renderFiltered kw l := by
  cases hf : l.filter validRenderEntry with
  | nil =>
      cases l with
      | nil => rfl
      | cons a t => simp [renderFiltered, hf]
  | cons x xs =>
      have hidem : (x :: xs).filter validRenderEntry = x :: xs := by
        rw [← hf, filter_validRenderEntry_idem]
      have hl : l ≠ [] := by
        intro h
        rw [h] at hf
        simp at hf
      have hlen : l.length > 0 := List.length_pos.mpr hl
      simp [renderFiltered, hf, hidem, hlen]

/-- The parameter-storing step of `_interpolate`: the counter advances by
one, the value is found under the new key, the emitted text is the
numbered placeholder, and the exported array holds the value at the
position one below the new counter. -/
theorem storeParam_spec (q : SQLQuery) (v : Value) :
    (storeParam q v).2.paramCounter = q.paramCounter + 1
    ∧ List.lookup (q.paramCounter + 1) (storeParam q v).2.params = some v
    ∧ (storeParam q v).1 = "$" ++ natToStr (q.paramCounter + 1)
    ∧ ((storeParam q v).2.parameters)[q.paramCounter]? = some v := by
  refine ⟨rfl, lookup_setParam_self _ _ _, rfl, ?_⟩
  have hne : (setParam q.params (q.paramCounter + 1) v).isEmpty = false :=
    setParam_isEmpty_false _ _ _
  have hmem : q.paramCounter + 1 ∈ (setParam q.params (q.paramCounter + 1) v).map Prod.fst :=
    mem_map_fst_setParam _ _ _
  have hle : q.paramCounter + 1 ≤
      ((setParam q.params (q.paramCounter + 1) v).map Prod.fst).foldl max 0 :=
    le_foldl_max_of_mem hmem 0
  simp only [storeParam, SQLQuery.parameters, hne, Bool.false_eq_true, if_false,
    List.getElem?_map]
  rw [List.getElem?_range (Nat.lt_of_succ_le hle)]
  simp only [Option.map]
  rw [lookup_setParam_self]
  rfl

/-! ### Claims -/

/-- Claim C1: the extension operation (`sql` method) returns a new
QueryState and leaves the receiver completely unchanged — every bucket,
the scalar fields, the parameter mapping and the counter of the base are
equal before and after the call, so rendering the base yields the same
string; the tracked run agrees with the plain `sql` method. -/
theorem claim_C1 (base : SQLQuery) (strings : List String) (values : List Value) :
    (base.sqlTracked strings values).1 = base
    ∧ (base.sqlTracked strings values).1.parts.select = base.parts.select
    ∧ (base.sqlTracked strings values).1.parts.from_ = base.parts.from_
    ∧ (base.sqlTracked strings values).1.parts.joins = base.parts.joins
    ∧ (base.sqlTracked strings values).1.parts.where_ = base.parts.where_
    ∧ (base.sqlTracked strings values).1.parts.groupBy = base.parts.groupBy
    ∧ (base.sqlTracked strings values).1.parts.orderBy = base.parts.orderBy
    ∧ (base.sqlTracked strings values).1.parts.limit = base.parts.limit
    ∧ (base.sqlTracked strings values).1.parts.offset = base.parts.offset
    ∧ (base.sqlTracked strings values).1.params = base.params
    ∧ (base.sqlTracked strings values).1.paramCounter = base.paramCounter
    ∧ (base.sqlTracked strings values).1.toString = base.toString
    ∧ (base.sqlTracked strings values).2 = base.sql strings values :=
  ⟨rfl, rfl, rfl, rfl, rfl, rfl, rfl, rfl, rfl, rfl, rfl, rfl, rfl⟩

/-- The query of claim C2: `SELECT * FROM users` extended first with
`WHERE id = <1>` and then with `AND name = <"John">`. -/
def c2Query : SQLQuery :=
  ((SQLQuery.make ["SELECT * FROM users"] []).sql
      ["WHERE id = ", ""] [Value.num 1]).sql
    ["AND name = ", ""] [Value.str "John"]

/-- Claim C2: two sequential parameterized extensions number placeholders
cumulatively — the rendered text carries `$1` and then `$2`, and the
exported parameter list is exactly `[1, "John"]`. -/
theorem claim_C2 :
    c2Query.toString
      = "SELECT\n  * FROM users\nWHERE id = " ++ "$1" ++ "\n  AND name = " ++ "$2"
    ∧ c2Query.parameters = [Value.num 1, Value.str "John"] :=
  ⟨by decide, rfl⟩

/-- Claim C5 counterexample: the same SELECT field list written on a
single line and across multiple lines does NOT produce the same bucket
contents — the single-line form keeps one combined entry while the
multi-line form holds one entry per line, and the rendered strings
differ as well. -/
theorem claim_C5_counterexample :
    (SQLQuery.make ["SELECT id, name\nFROM users"] []).parts.select = ["id, name"]
    ∧ (SQLQuery.make ["SELECT\n  id,\n  name\nFROM users"] []).parts.select = ["id", "name"]
    ∧ (["id, name"] : List String) ≠ ["id", "name"]
    ∧ (SQLQuery.make ["SELECT id, name\nFROM users"] []).toString
        ≠ (SQLQuery.make ["SELECT\n  id,\n  name\nFROM users"] []).toString := by
  refine ⟨by decide, by decide, by decide, by decide⟩

/-- Claim C5 (amended): parsing a multi-line SELECT field list is
invariant under comma placement style — leading-comma lines and
trailing-comma lines yield the same QueryState — and rendering that
state reproduces the statement with its clauses in order. -/
theorem claim_C5 :
    SQLQuery.make ["SELECT\n  , id\n  , name\nFROM users"] []
      = SQLQuery.make ["SELECT\n  id,\n  name\nFROM users"] []
    ∧ (SQLQuery.make ["SELECT\n  id,\n  name\nFROM users"] []).toString
        = "SELECT\n  id,\n  name\nFROM users" :=
  ⟨rfl, by decide⟩

/-- Claim C6: interpolating a plain object (non-null, non-primitive, not
a QueryState) consumes exactly one parameter slot — the counter advances
by one, only the value of the first declared key is stored under the new
key, the numbered placeholder is emitted, and no parameter entry is
created from any other key of the object. -/
theorem claim_C6 (q : SQLQuery) (k : String) (v : Value) (rest : List (String × Value)) :
    interpGap q (Value.obj ((k, v) :: rest)) =
      ("$" ++ natToStr (q.paramCounter + 1),
       { q with paramCounter := q.paramCounter + 1,
                params := setParam q.params (q.paramCounter + 1) v }) :=
  rfl

/-- Claim C9: the CLI pipeline — parse `SELECT id, name FROM users` as
the initial query, then classify `WHERE active = true` and `LIMIT 10` —
renders exactly the expected string. -/
theorem claim_C9 :
    (((SQLQuery.empty.parseInitialQuery "SELECT id, name FROM users").parseQuery
          "WHERE active = true").parseQuery "LIMIT 10").toString
      = "SELECT\n  id, name FROM users\nWHERE active = true\nLIMIT 10" := by
  decide

/-- Claim C3: per interpolation gap, an absent value emits the literal
`NULL` and leaves the counter alone; a primitive advances the counter by
exactly one, is stored under the new key, emits the numbered
placeholder, and sits at index counter − 1 of the exported parameter
array. -/
theorem claim_C3 (q : SQLQuery) (v : Value) :
    (v = Value.undef → interpGap q v = ("NULL", q))
    ∧ (v.isPrimitive = true →
        (interpGap q v).2.paramCounter = q.paramCounter + 1
        ∧ List.lookup ((interpGap q v).2.paramCounter) (interpGap q v).2.params = some v
        ∧ (interpGap q v).1 = "$" ++ natToStr ((interpGap q v).2.paramCounter)
        ∧ ((interpGap q v).2.parameters)[(interpGap q v).2.paramCounter - 1]? = some v) := by
  constructor
  · rintro rfl
    rfl
  · intro hp
    cases v with
    | bool b => exact storeParam_spec q (Value.bool b)
    | num n => exact storeParam_spec q (Value.num n)
    | str s => exact storeParam_spec q (Value.str s)
    | undef => simp [Value.isPrimitive] at hp
    | vnull => simp [Value.isPrimitive] at hp
    | obj kvs => simp [Value.isPrimitive] at hp
    | subq t => simp [Value.isPrimitive] at hp

/-- Witness for claim C3 at concrete inputs: the absent value on the
empty state, and the primitive `5` on the empty state. -/
theorem claim_C3_witness :
    interpGap SQLQuery.empty Value.undef = ("NULL", SQLQuery.empty)
    ∧ ((interpGap SQLQuery.empty (Value.num 5)).2.paramCounter = 1
        ∧ List.lookup ((interpGap SQLQuery.empty (Value.num 5)).2.paramCounter)
            (interpGap SQLQuery.empty (Value.num 5)).2.params = some (Value.num 5)
        ∧ (interpGap SQLQuery.empty (Value.num 5)).1
            = "$" ++ natToStr ((interpGap SQLQuery.empty (Value.num 5)).2.paramCounter)
        ∧ ((interpGap SQLQuery.empty (Value.num 5)).2.parameters)[(interpGap SQLQuery.empty
              (Value.num 5)).2.paramCounter - 1]? = some (Value.num 5)) :=
  ⟨(claim_C3 SQLQuery.empty Value.undef).1 rfl,
   (claim_C3 SQLQuery.empty (Value.num 5)).2 rfl⟩

/-- Claim C4: a fragment matching no clause-keyword prefix becomes a
WHERE condition — prefixed with `AND ` (never `OR `) when conditions
already exist, bare when it is the first condition; concretely,
`WHERE id = 1` extended with `name = 'John'` renders the WHERE block
`WHERE id = 1\n  AND name = 'John'`. -/
theorem claim_C4 :
    (∀ (q : SQLQuery) (frag : String), fragmentKeywordMatch frag = false →
        (q.parseQuery frag).parts.where_ =
          q.parts.where_ ++
            [if q.parts.where_.length > 0 then "AND " ++ jsTrim frag else jsTrim frag])
    ∧ ((SQLQuery.make ["WHERE id = 1"] []).sql ["name = \x27John\x27"] []).toString
        = "SELECT *\n" ++ "WHERE id = 1\n  AND name = \x27John\x27" := by
  constructor
  · intro q frag h
    simp only [fragmentKeywordMatch, Bool.or_eq_false_iff] at h
    obtain ⟨⟨⟨⟨⟨⟨⟨⟨⟨⟨⟨⟨h1, h2⟩, h3⟩, h4⟩, h5⟩, h6⟩, h7⟩, h8⟩, h9⟩, h10⟩, h11⟩, h12⟩, h13⟩ := h
    by_cases hw : q.parts.where_.length > 0 <;>
      simp [SQLQuery.parseQuery, h1, h2, h3, h4, h5, h6, h7, h8, h9, h10, h11, h12, h13, hw]
  · decide

/-- Witness for claim C4 at a concrete input: the bare fragment
`name = x` on the empty state becomes the first WHERE condition. -/
theorem claim_C4_witness :
    (SQLQuery.empty.parseQuery "name = x").parts.where_ = ["name = x"] :=
  claim_C4.1 SQLQuery.empty "name = x" (by decide)

/-- Claim C7: the fragment classifier is total — modelled as a total
function — and a fragment matching no clause-keyword prefix is placed in
the `where` bucket (which grows by one) while every other bucket and
scalar field is untouched; there is no failure branch. -/
theorem claim_C7 (q : SQLQuery) (frag : String) (h : fragmentKeywordMatch frag = false) :
    (q.parseQuery frag).parts.where_.length = q.parts.where_.length + 1
    ∧ (q.parseQuery frag).parts.select = q.parts.select
    ∧ (q.parseQuery frag).parts.from_ = q.parts.from_
    ∧ (q.parseQuery frag).parts.joins = q.parts.joins
    ∧ (q.parseQuery frag).parts.groupBy = q.parts.groupBy
    ∧ (q.parseQuery frag).parts.orderBy = q.parts.orderBy
    ∧ (q.parseQuery frag).parts.limit = q.parts.limit
    ∧ (q.parseQuery frag).parts.offset = q.parts.offset := by
  simp only [fragmentKeywordMatch, Bool.or_eq_false_iff] at h
  obtain ⟨⟨⟨⟨⟨⟨⟨⟨⟨⟨⟨⟨h1, h2⟩, h3⟩, h4⟩, h5⟩, h6⟩, h7⟩, h8⟩, h9⟩, h10⟩, h11⟩, h12⟩, h13⟩ := h
  by_cases hw : q.parts.where_.length > 0 <;>
    simp [SQLQuery.parseQuery, h1, h2, h3, h4, h5, h6, h7, h8, h9, h10, h11, h12, h13, hw]

/-- Witness for claim C7 at a concrete input. -/
theorem claim_C7_witness :
    (SQLQuery.empty.parseQuery "active = true").parts.where_.length
        = SQLQuery.empty.parts.where_.length + 1
    ∧ (SQLQuery.empty.parseQuery "active = true").parts.select = SQLQuery.empty.parts.select
    ∧ (SQLQuery.empty.parseQuery "active = true").parts.from_ = SQLQuery.empty.parts.from_
    ∧ (SQLQuery.empty.parseQuery "active = true").parts.joins = SQLQuery.empty.parts.joins
    ∧ (SQLQuery.empty.parseQuery "active = true").parts.groupBy = SQLQuery.empty.parts.groupBy
    ∧ (SQLQuery.empty.parseQuery "active = true").parts.orderBy = SQLQuery.empty.parts.orderBy
    ∧ (SQLQuery.empty.parseQuery "active = true").parts.limit = SQLQuery.empty.parts.limit
    ∧ (SQLQuery.empty.parseQuery "active = true").parts.offset = SQLQuery.empty.parts.offset :=
  claim_C7 SQLQuery.empty "active = true" (by decide)

/-- Claim C8 counterexample: states reachable through the public
operations DO contain bucket entries equal to a bare comma or the empty
string — constructing from the template `GROUP BY ,` seeds `groupBy`
with `","`, and extending with the fragment `GROUP BY` appends `""`. -/
theorem claim_C8_counterexample :
    (SQLQuery.make ["GROUP BY ,"] []).parts.groupBy = [","]
    ∧ ((SQLQuery.make ["SELECT x FROM t"] []).sql ["GROUP BY"] []).parts.groupBy = [""] :=
  ⟨by decide, by decide⟩

/-- Claim C8 (amended): the select, groupBy and orderBy buckets MAY
contain entries equal to a bare comma or the empty string; such entries
are not stripped when the state is built but are hidden at render time
for groupBy and orderBy — removing every entry the renderer's filter
rejects from those two buckets never changes the rendered string. -/
theorem claim_C8 (q : SQLQuery) :
    SQLQuery.toString
      { q with parts := { q.parts with
          groupBy := q.parts.groupBy.filter validRenderEntry,
          orderBy := q.parts.orderBy.filter validRenderEntry } }
      = SQLQuery.toString q := by
  obtain ⟨⟨sel, fr, j, w, g, o, li, off⟩, ps, pc⟩ := q
  simp [SQLQuery.toString, renderFiltered_filter]

/-- Claim C10 counterexample: in `SELECT a\nFROM t\nLIMIT 5\nextra` the
non-keyword line `extra` follows the LIMIT line while a select section
was opened earlier; the code drops `extra` entirely (the current section
is `from`), instead of appending it to the most recently opened
select/where/groupBy/orderBy section as the claim states. -/
theorem claim_C10_counterexample :
    (SQLQuery.make ["SELECT a\nFROM t\nLIMIT 5\nextra"] []).parts.select = ["a"]
    ∧ (SQLQuery.make ["SELECT a\nFROM t\nLIMIT 5\nextra"] []).parts.where_ = []
    ∧ (SQLQuery.make ["SELECT a\nFROM t\nLIMIT 5\nextra"] []).parts.groupBy = []
    ∧ (SQLQuery.make ["SELECT a\nFROM t\nLIMIT 5\nextra"] []).parts.orderBy = []
    ∧ (SQLQuery.make ["SELECT a\nFROM t\nLIMIT 5\nextra"] []).parts.joins = []
    ∧ (SQLQuery.make ["SELECT a\nFROM t\nLIMIT 5\nextra"] []).parts.limit = some "5"
    ∧ (SQLQuery.make ["SELECT a\nFROM t\nLIMIT 5\nextra"] []).parts.select ≠ ["a", "extra"] :=
  ⟨by decide, by decide, by decide, by decide, by decide, by decide, by decide⟩

/-- Claim C10 (amended): a line whose branch is `limit` or `offset` sets
the scalar field but leaves the current-section tag and every bucket
unchanged; a following non-keyword line is appended as a continuation
when the current section is select, where, groupBy or orderBy, is
ignored when the current section is none, from or joins (even if a
select-like section was opened earlier), and is never attached to the
limit or offset fields. -/
theorem claim_C10 :
    (∀ (q : SQLQuery) (sec : Option ClauseSection) (line : String),
        limitOffsetLine line = true →
          (initLineStep (q, sec) line).2 = sec
          ∧ (initLineStep (q, sec) line).1.parts.select = q.parts.select
          ∧ (initLineStep (q, sec) line).1.parts.joins = q.parts.joins
          ∧ (initLineStep (q, sec) line).1.parts.where_ = q.parts.where_
          ∧ (initLineStep (q, sec) line).1.parts.groupBy = q.parts.groupBy
          ∧ (initLineStep (q, sec) line).1.parts.orderBy = q.parts.orderBy
          ∧ (initLineStep (q, sec) line).1.parts.from_ = q.parts.from_)
    ∧ (∀ (q : SQLQuery) (sec : Option ClauseSection) (line : String),
        initKeywordMatch line = false →
          (initLineStep (q, sec) line).1.parts.limit = q.parts.limit
          ∧ (initLineStep (q, sec) line).1.parts.offset = q.parts.offset
          ∧ ((sec = none ∨ sec = some ClauseSection.from_ ∨ sec = some ClauseSection.joins) →
              initLineStep (q, sec) line = (q, sec))
          ∧ (sec = some ClauseSection.where_ →
              (initLineStep (q, sec) line).1.parts.where_ = q.parts.where_ ++ [line])
          ∧ (sec = some ClauseSection.groupBy →
              (initLineStep (q, sec) line).1.parts.groupBy = q.parts.groupBy ++ [line])
          ∧ (sec = some ClauseSection.orderBy →
              (initLineStep (q, sec) line).1.parts.orderBy = q.parts.orderBy ++ [line])) := by
  constructor
  · intro q sec line h
    simp only [limitOffsetLine, Bool.and_eq_true, Bool.not_eq_true'] at h
    obtain ⟨⟨⟨⟨⟨⟨⟨⟨⟨h1, h2⟩, h3⟩, h4⟩, h5⟩, h6⟩, h7⟩, h8⟩, h9⟩, h10⟩ := h
    cases hl : jsStartsWith (jsToLower line) "limit" with
    | true =>
        simp [initLineStep, h1, h2, h3, h4, h5, h6, h7, h8, h9, hl]
    | false =>
        have hoff : jsStartsWith (jsToLower line) "offset" = true := by
          rcases Bool.or_eq_true_iff.mp h10 with h | h
          · rw [hl] at h; cases h
          · exact h
        simp [initLineStep, h1, h2, h3, h4, h5, h6, h7, h8, h9, hl, hoff]
  · intro q sec line h
    simp only [initKeywordMatch, Bool.or_eq_false_iff] at h
    obtain ⟨⟨⟨⟨⟨⟨⟨⟨⟨⟨h1, h2⟩, h3⟩, h4⟩, h5⟩, h6⟩, h7⟩, h8⟩, h9⟩, h10⟩, h11⟩ := h
    rcases sec with _ | s
    · simp [initLineStep, h1, h2, h3, h4, h5, h6, h7, h8, h9, h10, h11]
    · cases s with
      | select =>
          refine ⟨?_, ?_, ?_, ?_, ?_, ?_⟩ <;>
            simp only [initLineStep, h1, h2, h3, h4, h5, h6, h7, h8, h9, h10, h11] <;>
            (split <;> (try split) <;> (try split) <;> (try split) <;> simp)
      | from_ => simp [initLineStep, h1, h2, h3, h4, h5, h6, h7, h8, h9, h10, h11]
      | joins => simp [initLineStep, h1, h2, h3, h4, h5, h6, h7, h8, h9, h10, h11]
      | where_ => simp [initLineStep, h1, h2, h3, h4, h5, h6, h7, h8, h9, h10, h11]
      | groupBy => simp [initLineStep, h1, h2, h3, h4, h5, h6, h7, h8, h9, h10, h11]
      | orderBy => simp [initLineStep, h1, h2, h3, h4, h5, h6, h7, h8, h9, h10, h11]

/-- Witness for claim C10 at concrete inputs: the line `LIMIT 5` with an
open where section, and the non-keyword line `extra` with current
section `from`. -/
theorem claim_C10_witness :
    ((initLineStep (SQLQuery.empty, some ClauseSection.where_) "LIMIT 5").2
          = some ClauseSection.where_
        ∧ (initLineStep (SQLQuery.empty, some ClauseSection.where_) "LIMIT 5").1.parts.select
          = SQLQuery.empty.parts.select
        ∧ (initLineStep (SQLQuery.empty, some ClauseSection.where_) "LIMIT 5").1.parts.joins
          = SQLQuery.empty.parts.joins
        ∧ (initLineStep (SQLQuery.empty, some ClauseSection.where_) "LIMIT 5").1.parts.where_
          = SQLQuery.empty.parts.where_
        ∧ (initLineStep (SQLQuery.empty, some ClauseSection.where_) "LIMIT 5").1.parts.groupBy
          = SQLQuery.empty.parts.groupBy
        ∧ (initLineStep (SQLQuery.empty, some ClauseSection.where_) "LIMIT 5").1.parts.orderBy
          = SQLQuery.empty.parts.orderBy
        ∧ (initLineStep (SQLQuery.empty, some ClauseSection.where_) "LIMIT 5").1.parts.from_
          = SQLQuery.empty.parts.from_)
    ∧ ((initLineStep (SQLQuery.empty, some ClauseSection.from_) "extra").1.parts.limit
          = SQLQuery.empty.parts.limit
        ∧ (initLineStep (SQLQuery.empty, some ClauseSection.from_) "extra").1.parts.offset
          = SQLQuery.empty.parts.offset
        ∧ ((some ClauseSection.from_ = none ∨ some ClauseSection.from_ = some ClauseSection.from_
              ∨ some ClauseSection.from_ = some ClauseSection.joins) →
            initLineStep (SQLQuery.empty, some ClauseSection.from_) "extra"
              = (SQLQuery.empty, some ClauseSection.from_))
        ∧ (some ClauseSection.from_ = some ClauseSection.where_ →
            (initLineStep (SQLQuery.empty, some ClauseSection.from_) "extra").1.parts.where_
              = SQLQuery.empty.parts.where_ ++ ["extra"])
        ∧ (some ClauseSection.from_ = some ClauseSection.groupBy →
            (initLineStep (SQLQuery.empty, some ClauseSection.from_) "extra").1.parts.groupBy
              = SQLQuery.empty.parts.groupBy ++ ["extra"])
        ∧ (some ClauseSection.from_ = some ClauseSection.orderBy →
            (initLineStep (SQLQuery.empty, some ClauseSection.from_) "extra").1.parts.orderBy
              = SQLQuery.empty.parts.orderBy ++ ["extra"])) :=
  ⟨claim_C10.1 SQLQuery.empty (some ClauseSection.where_) "LIMIT 5" (by decide),
   claim_C10.2 SQLQuery.empty (some ClauseSection.from_) "extra" (by decide)⟩
